import Mathlib

/-!
Shallow embedding of the geospatial ward-resolution core of the repository
(src/src/utils/geoUtils.js, src/src/hooks/useGeoJSON.js, src/src/hooks/useWards.js,
and the legacy geometry code in src/unnamed/part_000).

JavaScript numbers are modelled as exact rationals (ℚ); JavaScript `null`/`undefined`
as `Option.none`; objects as Lean structures; the asynchronous cache storage as
explicit state passing, with each storage call applied in the order the code issues
it.  Exceptions never arise in the rational model, so the `try`/`catch` wrappers of
the source collapse to the plain computation; the guards that the source performs
before any fallible access are kept verbatim.
-/

namespace FixMaps

/-- A geographic point `{latitude, longitude}` (geoUtils.js and hooks). -/
structure Point where
  latitude : ℚ
  longitude : ℚ
deriving DecidableEq

/-- A GeoJSON coordinate pair `[longitude, latitude]`. -/
abbrev Coord := ℚ × ℚ

/-- A polygon ring: an ordered list of `[longitude, latitude]` pairs. -/
abbrev LinearRing := List Coord

/-- GeoJSON geometry as the source discriminates it: the code only ever tests
`geometry.type === 'Polygon'` and `=== 'MultiPolygon'`; every other geometry type
is handled by the fall-through branches, modelled by `otherGeom`. -/
inductive Geometry where
  | polygon (coordinates : List LinearRing)
  | multiPolygon (coordinates : List (List LinearRing))
  | otherGeom
deriving DecidableEq

/-- A GeoJSON feature: geometry (possibly `null`) and a properties object,
modelled as an association list from keys to string values (a missing key is
JS `undefined`, an empty string is present but falsy). -/
structure Feature where
  geometry : Option Geometry
  properties : List (String × String)
deriving DecidableEq

/-- A FeatureCollection (`{type, features}`). -/
structure Dataset where
  type : String
  features : List Feature
deriving DecidableEq

/-- Map bounds `{northEast, southWest}` (geoUtils.js `isPointInBounds`). -/
structure BoundingBox where
  northEast : Point
  southWest : Point
deriving DecidableEq

/-! ### Geometry engine: geoUtils.js -/

/-- One iteration of the ray-casting loop body of `isPointInPolygon`
(geoUtils.js lines 14-21): edge from vertex `a` (index i) to vertex `b`
(index j), toggling the parity flag when the edge straddles the point's
latitude and the point's longitude is left of the intersection. -/
def rayCastEdge (lat lng : ℚ) (a b : Coord) (inside : Bool) : Bool :=
  let xi := a.1
  let yi := a.2
  let xj := b.1
  let yj := b.2
  if (decide (yi > lat) != decide (yj > lat))
      && decide (lng < (xj - xi) * (lat - yi) / (yj - yi) + xi)
  then !inside
  else inside

/-- The `for (let i = 0, j = polygon.length - 1; i < polygon.length; j = i++)`
loop of `isPointInPolygon`: index pairs (0, n-1), (1, 0), ..., (n-1, n-2). -/
def rayCastLoop (lat lng : ℚ) (polygon : List Coord) : Bool :=
  (List.range polygon.length).foldl
    (fun inside i =>
      let a := polygon.getD i (0, 0)
      let b := polygon.getD (if i = 0 then polygon.length - 1 else i - 1) (0, 0)
      rayCastEdge lat lng a b inside)
    false

/-- `isPointInPolygon` (geoUtils.js lines 7-28): guards
`if (!point || !polygon || polygon.length < 3) return false;`, then runs the
ray-casting loop.  Null point or null ring is `none`. -/
def isPointInPolygon (point : Option Point) (polygon : Option (List Coord)) : Bool :=
  match point, polygon with
  | some p, some ring =>
      if ring.length < 3 then false
      else rayCastLoop p.latitude p.longitude ring
  | _, _ => false

/-- The legacy `isPointInPolygon` of src/unnamed/part_000 (lines 86-100): the
identical ray-casting loop, with no degenerate-input guard and no `try`/`catch`;
it destructures the point directly, so it is only meaningful on a present point. -/
def legacyIsPointInPolygon (p : Point) (polygon : List Coord) : Bool :=
  rayCastLoop p.latitude p.longitude polygon

/-- The per-feature containment test that `findWardForPoint` applies: a Polygon
feature matches on its outer ring `coordinates[0]` alone; a MultiPolygon matches
when any constituent polygon's outer ring `polygon[0]` contains the point;
a null geometry or any other geometry type never matches. -/
def featureMatchesPoint (p : Point) (f : Feature) : Bool :=
  match f.geometry with
  | none => false
  | some (Geometry.polygon coords) =>
      match coords.head? with
      | some ring => isPointInPolygon (some p) (some ring)
      | none => false
  | some (Geometry.multiPolygon polys) =>
      polys.any (fun poly =>
        match poly.head? with
        | some ring => isPointInPolygon (some p) (some ring)
        | none => false)
  | some Geometry.otherGeom => false

/-- The `for (const feature of geoJsonData.features)` loop of `findWardForPoint`
(geoUtils.js lines 40-57), returning on the first containing feature, skipping
features with null geometry, Polygon features whose `coordinates[0]` is absent,
and features of other geometry types. -/
def findWardLoop (p : Point) : List Feature → Option Feature
  | [] => none
  | f :: rest =>
    match f.geometry with
    | none => findWardLoop p rest
    | some (Geometry.polygon coords) =>
        match coords.head? with
        | some ring =>
            if isPointInPolygon (some p) (some ring) then some f else findWardLoop p rest
        | none => findWardLoop p rest
    | some (Geometry.multiPolygon polys) =>
        if polys.any (fun poly =>
            match poly.head? with
            | some ring => isPointInPolygon (some p) (some ring)
            | none => false)
        then some f
        else findWardLoop p rest
    | some Geometry.otherGeom => findWardLoop p rest

/-- `findWardForPoint` (geoUtils.js lines 36-63): guard
`if (!geoJsonData?.features || !point) return null;`, then the feature loop. -/
def findWardForPoint (point : Option Point) (geoJsonData : Option Dataset) : Option Feature :=
  match geoJsonData, point with
  | some d, some p => findWardLoop p d.features
  | _, _ => none

/-- `isPointInBounds` (geoUtils.js lines 160-175): `true` when bounds or point
is absent, otherwise the four inclusive range comparisons. -/
def isPointInBounds (point : Option Point) (bounds : Option BoundingBox) : Bool :=
  match bounds, point with
  | none, _ => true
  | some _, none => true
  | some b, some p =>
      decide (p.latitude ≥ b.southWest.latitude)
        && decide (p.latitude ≤ b.northEast.latitude)
        && decide (p.longitude ≥ b.southWest.longitude)
        && decide (p.longitude ≤ b.northEast.longitude)

/-- The per-feature keep predicate of `filterGeoJSONByBounds` (geoUtils.js lines
189-205): sample the outer ring (`coordinates[0] || []` for a Polygon,
`coordinates[0]?.[0] || []` for a MultiPolygon, `[]` for anything else — a null
geometry or missing coordinates returns false) and keep the feature when some
sampled coordinate lies in bounds. -/
def keepFeature (bounds : Option BoundingBox) (f : Feature) : Bool :=
  match f.geometry with
  | none => false
  | some (Geometry.polygon coords) =>
      (coords.headD []).any (fun coord =>
        isPointInBounds (some { latitude := coord.2, longitude := coord.1 }) bounds)
  | some (Geometry.multiPolygon polys) =>
      ((polys.headD []).headD []).any (fun coord =>
        isPointInBounds (some { latitude := coord.2, longitude := coord.1 }) bounds)
  | some Geometry.otherGeom => false

/-- `filterGeoJSONByBounds` (geoUtils.js lines 184-217): returns the input
unchanged when bounds or the dataset is absent; otherwise a spread copy
`{...geojson, features: filteredFeatures}` with the filtered feature array. -/
def filterGeoJSONByBounds (geojson : Option Dataset) (bounds : Option BoundingBox) :
    Option Dataset :=
  match bounds, geojson with
  | none, g => g
  | some _, none => none
  | some b, some d => some { d with features := d.features.filter (keepFeature (some b)) }

/-! ### Cache store: useGeoJSON.js (getCachedGeoJSON / cacheGeoJSON) -/

/-- The serialized record `{data, timestamp}` held under the single cache key
(`GEOJSON_CACHE_KEY`); the timestamp is `Date.now()` in milliseconds. -/
structure CacheEntry where
  data : Dataset
  timestamp : ℤ
deriving DecidableEq

/-- The cache store state: the single `AsyncStorage` slot, absent or holding one entry. -/
abbrev CacheState := Option CacheEntry

/-- `CACHE_EXPIRY_HOURS = 24` (useGeoJSON.js line 6). -/
def CACHE_EXPIRY_HOURS : ℚ := 24

/-- `getCachedGeoJSON` (useGeoJSON.js lines 74-95) as a state transformer:
returns `null` if no entry exists; otherwise computes
`cacheAge = (now - timestamp) / (1000 * 60 * 60)` hours and, when
`cacheAge > CACHE_EXPIRY_HOURS`, removes the entry and returns `null`;
otherwise returns the cached data, leaving the entry in place. -/
def getCachedGeoJSON (now : ℤ) (cache : CacheState) : Option Dataset × CacheState :=
  match cache with
  | none => (none, none)
  | some entry =>
      let cacheAge : ℚ := ((now - entry.timestamp : ℤ) : ℚ) / (1000 * 60 * 60)
      if cacheAge > CACHE_EXPIRY_HOURS then (none, none)
      else (some entry.data, some entry)

/-- `cacheGeoJSON` (useGeoJSON.js lines 97-108): overwrites the slot with
`{data, timestamp: Date.now()}`. -/
def cacheGeoJSON (data : Dataset) (now : ℤ) (_cache : CacheState) : CacheState :=
  some { data := data, timestamp := now }

/-! ### Acquisition pipeline: useGeoJSON.js (loadGeoJSON / refreshGeoJSON) -/

/-- The outcome of the remote `fetch` of the GeoJSON URL: a decoded body on
success; a non-2xx response (`!response.ok`); an abort by the 30-second timeout
(`err.name === 'AbortError'`); or another network error carrying a message. -/
inductive FetchOutcome where
  | success (body : Dataset)
  | httpError (status : Nat)
  | timeout
  | networkError (message : String)
deriving DecidableEq

/-- The error string `loadGeoJSON`'s catch block stores for each failure
(useGeoJSON.js lines 60-66): the fixed timeout message for an AbortError,
`err.message` otherwise — which for the thrown non-2xx error is
`Failed to fetch GeoJSON: ${response.status}`. -/
def fetchErrorMessage : FetchOutcome → Option String
  | FetchOutcome.success _ => none
  | FetchOutcome.httpError status => some ("Failed to fetch GeoJSON: " ++ toString status)
  | FetchOutcome.timeout => some "Request timed out. Please check your internet connection."
  | FetchOutcome.networkError msg => some msg

/-- The observable hook state `{geoJsonData, loading, error}` of `useGeoJSON`. -/
structure PipelineState where
  geoJsonData : Option Dataset
  loading : Bool
  error : Option String
deriving DecidableEq

/-- `{ type: 'FeatureCollection', features: [] }` set on load failure
(useGeoJSON.js line 68). -/
def emptyFeatureCollection : Dataset :=
  { type := "FeatureCollection", features := [] }

/-- The result of one run of `loadGeoJSON`: the hook state it leaves behind, the
cache slot after its storage operations, and whether the remote fetch was issued
(false exactly on the cache-hit early return). -/
structure LoadResult where
  state : PipelineState
  cache : CacheState
  fetched : Bool
deriving DecidableEq

/-- `loadGeoJSON` (useGeoJSON.js lines 19-72) as a pure transition: read the
cache; on a hit set the cached data and return without touching the network; on
a miss issue the fetch — on success simplify (the external `simplify-geojson`
call is the `simplify` parameter; on its internal failure the source returns the
original, so `simplify` is total), write the simplified result to the cache and
expose it; on timeout or transport failure store the error string and the empty
FeatureCollection.  `loading` ends false on every path (the `finally` block). -/
def loadGeoJSON (simplify : Dataset → Dataset) (now : ℤ) (cache : CacheState)
    (fetch : FetchOutcome) : LoadResult :=
  let rd := getCachedGeoJSON now cache
  match rd.1 with
  | some cachedData =>
      { state := { geoJsonData := some cachedData, loading := false, error := none },
        cache := rd.2
        fetched := false }
  | none =>
      match fetch with
      | FetchOutcome.success raw =>
          let simplified := simplify raw
          { state := { geoJsonData := some simplified, loading := false, error := none },
            cache := cacheGeoJSON simplified now rd.2
            fetched := true }
      | failure =>
          { state := { geoJsonData := some emptyFeatureCollection, loading := false,
                       error := fetchErrorMessage failure },
            cache := rd.2
            fetched := true }

/-- `refreshGeoJSON` (useGeoJSON.js lines 122-125): issues
`AsyncStorage.removeItem(GEOJSON_CACHE_KEY)` and then calls `loadGeoJSON()`.
Storage operations are modelled as applied in invocation order, so the load
starts from an emptied slot. -/
def refreshGeoJSON (simplify : Dataset → Dataset) (now : ℤ) (_cache : CacheState)
    (fetch : FetchOutcome) : LoadResult :=
  loadGeoJSON simplify now none fetch

/-! ### Ward resolution facade: useWards.js -/

/-- JS truthiness of a property value: `undefined` (absent) and the empty string
are falsy; every other string is truthy. -/
def jsTruthyStr : Option String → Bool
  | none => false
  | some s => s ≠ ""

/-- The JS `||` operator on property values: the left operand when truthy,
otherwise the right operand. -/
def jsOr (a b : Option String) : Option String :=
  if jsTruthyStr a then a else b

/-- Template-literal stringification: `undefined` interpolates as the string
"undefined". -/
def jsToString : Option String → String
  | none => "undefined"
  | some s => s

/-- `ward.properties?.key` — property lookup. -/
def getProp (props : List (String × String)) (key : String) : Option String :=
  props.lookup key

/-- `properties?.id || properties?.WARD_ID || properties?.ward_id`
(useWards.js lines 16 and 36). -/
def wardId (props : List (String × String)) : Option String :=
  jsOr (jsOr (getProp props "id") (getProp props "WARD_ID")) (getProp props "ward_id")

/-- `properties?.name || properties?.WARD_NAME || properties?.ward_name ||
`Ward ${properties?.WARD_ID || properties?.ward_id}`` (useWards.js lines 17 and 37). -/
def wardName (props : List (String × String)) : Option String :=
  jsOr (jsOr (jsOr (getProp props "name") (getProp props "WARD_NAME"))
      (getProp props "ward_name"))
    (some ("Ward " ++ jsToString (jsOr (getProp props "WARD_ID") (getProp props "ward_id"))))

/-- `properties?.municipality || properties?.MUNICIPALITY || properties?.mun_name`
(useWards.js lines 18 and 38). -/
def wardMunicipality (props : List (String × String)) : Option String :=
  jsOr (jsOr (getProp props "municipality") (getProp props "MUNICIPALITY"))
    (getProp props "mun_name")

/-- The normalized ward record built by `findWardByLocation` and `getAllWards`;
`findWardByLocation` omits the geometry key (modelled as `none`),
`getAllWards` includes it. -/
structure WardRecord where
  id : Option String
  name : Option String
  municipality : Option String
  properties : List (String × String)
  geometry : Option Geometry
deriving DecidableEq

/-- `findWardByLocation` (useWards.js lines 8-29): guard
`if (!geoJsonData || loading || !latitude || !longitude) return null;`
(note: a coordinate equal to 0 is falsy), then `findWardForPoint` and
normalization of the matched feature's properties. -/
def findWardByLocation (st : PipelineState) (latitude longitude : ℚ) : Option WardRecord :=
  match st.geoJsonData with
  | none => none
  | some d =>
      if st.loading || decide (latitude = 0) || decide (longitude = 0) then none
      else
        match findWardForPoint (some { latitude := latitude, longitude := longitude })
            (some d) with
        | some ward =>
            some { id := wardId ward.properties
                   name := wardName ward.properties
                   municipality := wardMunicipality ward.properties
                   properties := ward.properties
                   geometry := none }
        | none => none

/-- `getAllWards` (useWards.js lines 31-46): `[]` while no data is held or
loading, otherwise every feature mapped through the same normalization,
keeping dataset order and including the geometry. -/
def getAllWards (st : PipelineState) : List WardRecord :=
  match st.geoJsonData with
  | none => []
  | some d =>
      if st.loading then []
      else
        d.features.map (fun feature =>
          { id := wardId feature.properties
            name := wardName feature.properties
            municipality := wardMunicipality feature.properties
            properties := feature.properties
            geometry := feature.geometry })

/-! ### Concrete fixtures -/

/-- The square ward ring of the end-to-end scenario: `[longitude, latitude]`
vertices covering lat ∈ [-1, 1], lon ∈ [-1, 1]. -/
def squareRing : LinearRing := [(-1, -1), (1, -1), (1, 1), (-1, 1), (-1, -1)]

/-- The square ward feature of the end-to-end scenario. -/
def squareFeature : Feature :=
  { geometry := some (Geometry.polygon [squareRing])
    properties := [("id", "1"), ("name", "Test Ward")] }

/-- The FeatureCollection the mocked remote source returns in the end-to-end
scenario. -/
def squareFC : Dataset := { type := "FeatureCollection", features := [squareFeature] }

/-- The full-world bounding box: lat ∈ [-90, 90], lon ∈ [-180, 180]. -/
def fullWorldBox : BoundingBox :=
  { northEast := { latitude := 90, longitude := 180 }
    southWest := { latitude := -90, longitude := -180 } }

/-- A feature with a null geometry. -/
def nullGeomFeature : Feature := { geometry := none, properties := [] }

/-- A dataset holding only a null-geometry feature. -/
def nullGeomDataset : Dataset :=
  { type := "FeatureCollection", features := [nullGeomFeature] }

/-! ### Helper lemmas -/

/-- The feature loop of `findWardForPoint` returns the first feature of the
list that `featureMatchesPoint` accepts. -/
lemma findWardLoop_eq_find? (p : Point) (fs : List Feature) :
    findWardLoop p fs = fs.find? (featureMatchesPoint p) := by
  induction fs with
  | nil => rfl
  | cons f rest ih =>
    obtain ⟨g, props⟩ := f
    rw [List.find?_cons]
    cases g with
    | none => simpa [findWardLoop, featureMatchesPoint] using ih
    | some geom =>
      cases geom with
      | polygon coords =>
        cases coords with
        | nil => simpa [findWardLoop, featureMatchesPoint] using ih
        | cons ring rs =>
          simp only [findWardLoop, featureMatchesPoint, List.head?, ih]
          cases isPointInPolygon (some p) (some ring) <;> simp
      | multiPolygon polys =>
        simp only [findWardLoop, featureMatchesPoint, ih]
        cases polys.any fun poly =>
            match poly.head? with
            | some ring => isPointInPolygon (some p) (some ring)
            | none => false
        all_goals simp
      | otherGeom => simpa [findWardLoop, featureMatchesPoint] using ih

/-! ### Claim theorems -/

/-- C2: `findWardForPoint` iterates the dataset's features in stored order and
returns the first feature containing the point (the per-feature test being
`featureMatchesPoint`: a Polygon matches on its outer ring `coordinates[0]`
only — further rings, i.e. holes, are ignored; a MultiPolygon matches when any
constituent polygon's outer ring contains the point); it returns none when the
dataset or the point is absent, and `List.find?` returns none when no feature
matches. -/
theorem findWardForPoint_first_containing_feature :
    (∀ (p : Point) (d : Dataset),
        findWardForPoint (some p) (some d) = d.features.find? (featureMatchesPoint p)) ∧
    (∀ (p : Point) (ring : LinearRing) (holes : List LinearRing)
        (props : List (String × String)),
        featureMatchesPoint p
            { geometry := some (Geometry.polygon (ring :: holes)), properties := props } =
          isPointInPolygon (some p) (some ring)) ∧
    (∀ d : Dataset, findWardForPoint none (some d) = none) ∧
    (∀ pt : Option Point, findWardForPoint pt none = none) := by
  refine ⟨fun p d => findWardLoop_eq_find? p d.features, fun p ring holes props => rfl,
    fun d => rfl, fun pt => ?_⟩
  cases pt <;> rfl

/-- C6: `isPointInPolygon` returns false on every degenerate input — a null
point, a null ring, or a ring with fewer than 3 vertices — and, being a total
Lean function over total helpers, never faults. -/
theorem isPointInPolygon_degenerate_false :
    (∀ poly, isPointInPolygon none poly = false) ∧
    (∀ pt, isPointInPolygon pt none = false) ∧
    (∀ (p : Point) (ring : List Coord),
        ring.length < 3 → isPointInPolygon (some p) (some ring) = false) := by
  refine ⟨fun poly => ?_, fun pt => ?_, fun p ring h => ?_⟩
  · cases poly <;> rfl
  · cases pt <;> rfl
  · simp [isPointInPolygon, h]

/-- Witness for C6 at the concrete degenerate ring `[]`. -/
theorem isPointInPolygon_degenerate_false_witness :
    ([] : List Coord).length < 3 ∧
      isPointInPolygon (some { latitude := 0, longitude := 0 }) (some []) = false :=
  ⟨by decide,
    isPointInPolygon_degenerate_false.2.2 { latitude := 0, longitude := 0 } [] (by decide)⟩

/-- C10: on a present point and a ring of at least 3 well-formed coordinate
pairs, the guarded `isPointInPolygon` of src/src/utils/geoUtils.js and the
legacy unguarded `isPointInPolygon` of src/unnamed/part_000 return the same
boolean. -/
theorem isPointInPolygon_matches_legacy (p : Point) (ring : List Coord)
    (h : 3 ≤ ring.length) :
    isPointInPolygon (some p) (some ring) = legacyIsPointInPolygon p ring := by
  simp [isPointInPolygon, legacyIsPointInPolygon, Nat.not_lt.mpr h]

/-- Witness for C10 at the square ring and the origin. -/
theorem isPointInPolygon_matches_legacy_witness :
    3 ≤ squareRing.length ∧
      isPointInPolygon (some { latitude := 0, longitude := 0 }) (some squareRing) =
        legacyIsPointInPolygon { latitude := 0, longitude := 0 } squareRing :=
  ⟨by decide,
    isPointInPolygon_matches_legacy { latitude := 0, longitude := 0 } squareRing (by decide)⟩

/-- C9: `filterGeoJSONByBounds` never mutates its input (it is a pure function
of an immutable value in this embedding, mirroring the source's `Array.filter`
plus object spread, neither of which writes to the input); its result is a
dataset that keeps the input's `type` field and whose feature list is a
subsequence of the input's features (same elements, unchanged, in order); with
an absent box the input dataset is returned as-is. -/
theorem filterByBounds_preserves_shape (d : Dataset) (b : BoundingBox) :
    (∃ result : Dataset,
        filterGeoJSONByBounds (some d) (some b) = some result ∧
        result.type = d.type ∧
        result.features.Sublist d.features) ∧
    filterGeoJSONByBounds (some d) none = some d :=
  ⟨⟨{ d with features := d.features.filter (keepFeature (some b)) }, rfl, rfl,
      List.filter_sublist d.features⟩, rfl⟩

/-- C3: cache TTL semantics. After `cacheGeoJSON d` at time `T` (milliseconds),
a read at `Tr` with `Tr - T` at most 24 hours returns `d` and keeps the entry;
a read with `Tr - T` strictly greater than 24 hours removes the entry and
returns none; a read of an empty slot returns none. -/
theorem cache_ttl_read_write (d : Dataset) (c : CacheState) (T Tr : ℤ) :
    (Tr - T ≤ 24 * 60 * 60 * 1000 →
      getCachedGeoJSON Tr (cacheGeoJSON d T c) = (some d, cacheGeoJSON d T c)) ∧
    (24 * 60 * 60 * 1000 < Tr - T →
      getCachedGeoJSON Tr (cacheGeoJSON d T c) = (none, none)) ∧
    getCachedGeoJSON Tr none = (none, none) := by
  have key : (((Tr - T : ℤ) : ℚ) / (1000 * 60 * 60) > CACHE_EXPIRY_HOURS) ↔
      ((24 * 60 * 60 * 1000 : ℤ) < Tr - T) := by
    rw [CACHE_EXPIRY_HOURS, gt_iff_lt, lt_div_iff₀ (by norm_num : (0 : ℚ) < 1000 * 60 * 60)]
    constructor
    · intro h
      exact_mod_cast h
    · intro h
      exact_mod_cast h
  refine ⟨fun h => ?_, fun h => ?_, rfl⟩
  · simp only [getCachedGeoJSON, cacheGeoJSON]
    rw [if_neg]
    rw [key]
    exact not_lt.mpr h
  · simp only [getCachedGeoJSON, cacheGeoJSON]
    rw [if_pos]
    rw [key]
    exact h

/-- Witness for C3 at T = 0, reads at 23h59m (86340000 ms) and 24h01m
(86460000 ms). -/
theorem cache_ttl_read_write_witness :
    ((86340000 : ℤ) - 0 ≤ 24 * 60 * 60 * 1000 ∧
      getCachedGeoJSON 86340000 (cacheGeoJSON squareFC 0 none) =
        (some squareFC, cacheGeoJSON squareFC 0 none)) ∧
    (24 * 60 * 60 * 1000 < (86460000 : ℤ) - 0 ∧
      getCachedGeoJSON 86460000 (cacheGeoJSON squareFC 0 none) = (none, none)) :=
  ⟨⟨by decide, (cache_ttl_read_write squareFC none 0 86340000).1 (by decide)⟩,
    ⟨by decide, (cache_ttl_read_write squareFC none 0 86460000).2.1 (by decide)⟩⟩

/-- C5: `refreshGeoJSON` deletes the cache entry before re-running the load, so
the load it triggers behaves exactly as a load from an empty cache — whatever
was cached before — and always issues the remote fetch (`fetched = true`),
never serving the previously cached dataset. -/
theorem refresh_always_misses_cache (simplify : Dataset → Dataset) (now : ℤ)
    (cache : CacheState) (fetch : FetchOutcome) :
    refreshGeoJSON simplify now cache fetch = loadGeoJSON simplify now none fetch ∧
    (refreshGeoJSON simplify now cache fetch).fetched = true := by
  refine ⟨rfl, ?_⟩
  show (loadGeoJSON simplify now none fetch).fetched = true
  cases fetch <;> rfl

/-- C7 counterexample: on a dataset containing a null-geometry feature, the
full-world filter drops the feature, so the round-trip does not return the
input unchanged. -/
theorem filterByBounds_fullWorld_counterexample :
    filterGeoJSONByBounds (some nullGeomDataset) (some fullWorldBox) ≠
      some nullGeomDataset := by decide

/-- C7 amended: the full-world round-trip holds for every dataset all of whose
features pass the filter's sampled-ring test — i.e. each feature has a
geometry whose first outer ring contains at least one coordinate inside the
full-world box; such a dataset is returned with all features unchanged, in
order. -/
theorem filterByBounds_fullWorld_roundTrip (d : Dataset)
    (h : ∀ f ∈ d.features, keepFeature (some fullWorldBox) f = true) :
    filterGeoJSONByBounds (some d) (some fullWorldBox) = some d := by
  simp only [filterGeoJSONByBounds]
  rw [List.filter_eq_self.mpr h]

/-- Witness for C7 at the square-ward dataset. -/
theorem filterByBounds_fullWorld_roundTrip_witness :
    filterGeoJSONByBounds (some squareFC) (some fullWorldBox) = some squareFC :=
  filterByBounds_fullWorld_roundTrip squareFC (by decide)

/-- C8 counterexample: a feature whose properties hold only the lower-case key
`id` (value "7") and no name key.  The resolved id is "7", but the synthesized
name is "Ward undefined" — the fallback interpolates `WARD_ID || ward_id`, not
the resolved id — so the record's name is not "Ward " followed by the resolved
id. -/
theorem wardName_fallback_counterexample :
    (getAllWards
        { geoJsonData := some
            { type := "FeatureCollection"
              features := [{ geometry := none, properties := [("id", "7")] }] }
          loading := false
          error := none }).map WardRecord.id = [some "7"] ∧
    (getAllWards
        { geoJsonData := some
            { type := "FeatureCollection"
              features := [{ geometry := none, properties := [("id", "7")] }] }
          loading := false
          error := none }).map WardRecord.name = [some "Ward undefined"] ∧
    [some "Ward undefined"] ≠ [some ("Ward " ++ "7")] := by decide

/-- C8 amended: each logical field is resolved by trying the lower-case key,
then the upper-case legacy key, then the snake_case legacy key, taking the
first truthy value; and when no name key yields a truthy value, the record's
name is the string "Ward " followed by the interpolation of
`WARD_ID || ward_id` — the legacy id keys only (rendering "undefined" when both
are absent or falsy), which coincides with the resolved id only when the
lower-case `id` key is not truthy. -/
theorem ward_normalization_precedence (props : List (String × String)) :
    (jsTruthyStr (getProp props "id") = true → wardId props = getProp props "id") ∧
    (jsTruthyStr (getProp props "id") = false →
      jsTruthyStr (getProp props "WARD_ID") = true →
        wardId props = getProp props "WARD_ID") ∧
    (jsTruthyStr (getProp props "id") = false →
      jsTruthyStr (getProp props "WARD_ID") = false →
        wardId props = getProp props "ward_id") ∧
    (jsTruthyStr (getProp props "name") = true → wardName props = getProp props "name") ∧
    (jsTruthyStr (getProp props "name") = false →
      jsTruthyStr (getProp props "WARD_NAME") = true →
        wardName props = getProp props "WARD_NAME") ∧
    (jsTruthyStr (getProp props "name") = false →
      jsTruthyStr (getProp props "WARD_NAME") = false →
        jsTruthyStr (getProp props "ward_name") = true →
          wardName props = getProp props "ward_name") ∧
    (jsTruthyStr (getProp props "municipality") = true →
      wardMunicipality props = getProp props "municipality") ∧
    (jsTruthyStr (getProp props "municipality") = false →
      jsTruthyStr (getProp props "MUNICIPALITY") = true →
        wardMunicipality props = getProp props "MUNICIPALITY") ∧
    (jsTruthyStr (getProp props "municipality") = false →
      jsTruthyStr (getProp props "MUNICIPALITY") = false →
        wardMunicipality props = getProp props "mun_name") ∧
    (jsTruthyStr (getProp props "name") = false →
      jsTruthyStr (getProp props "WARD_NAME") = false →
        jsTruthyStr (getProp props "ward_name") = false →
          wardName props =
            some ("Ward " ++
              jsToString (jsOr (getProp props "WARD_ID") (getProp props "ward_id")))) := by
  refine ⟨fun h1 => ?_, fun h1 h2 => ?_, fun h1 h2 => ?_, fun h1 => ?_, fun h1 h2 => ?_,
    fun h1 h2 h3 => ?_, fun h1 => ?_, fun h1 h2 => ?_, fun h1 h2 => ?_, fun h1 h2 h3 => ?_⟩ <;>
    simp_all [wardId, wardName, wardMunicipality, jsOr]

/-- Witness for C8 at properties holding only `WARD_ID = "9"`: the resolved id
is "9" and the synthesized name is "Ward 9". -/
theorem ward_normalization_precedence_witness :
    wardId [("WARD_ID", "9")] = some "9" ∧ wardName [("WARD_ID", "9")] = some "Ward 9" :=
  ⟨((ward_normalization_precedence [("WARD_ID", "9")]).2.1 (by decide) (by decide)).trans
      (by decide),
    ((ward_normalization_precedence
          [("WARD_ID", "9")]).2.2.2.2.2.2.2.2.2 (by decide) (by decide) (by decide)).trans
      (by decide)⟩

/-- C4: on a cache miss, every fetch failure (timeout, non-2xx, or network
error with the error's own non-empty message) leaves the pipeline degraded:
a non-empty error string, the held dataset equal to the empty well-formed
FeatureCollection, `getAllWards` an empty list, and ward resolution none at
every point. -/
theorem load_failure_degraded (simplify : Dataset → Dataset) (now : ℤ)
    (cache : CacheState) (fetch : FetchOutcome) (lat lng : ℚ)
    (hmiss : (getCachedGeoJSON now cache).1 = none)
    (hfail : ∀ d, fetch ≠ FetchOutcome.success d)
    (hmsg : ∀ m, fetch = FetchOutcome.networkError m → m ≠ "") :
    ((loadGeoJSON simplify now cache fetch).state.error).getD "" ≠ "" ∧
    (loadGeoJSON simplify now cache fetch).state.geoJsonData =
      some emptyFeatureCollection ∧
    getAllWards (loadGeoJSON simplify now cache fetch).state = [] ∧
    findWardByLocation (loadGeoJSON simplify now cache fetch).state lat lng = none := by
  rcases hc : getCachedGeoJSON now cache with ⟨d1, c2⟩
  rw [hc] at hmiss
  simp only at hmiss
  subst hmiss
  have hload : loadGeoJSON simplify now cache fetch =
      { state := { geoJsonData := some emptyFeatureCollection, loading := false,
                   error := fetchErrorMessage fetch },
        cache := c2
        fetched := true } := by
    cases fetch with
    | success b => exact absurd rfl (hfail b)
    | httpError s => simp [loadGeoJSON, hc]
    | timeout => simp [loadGeoJSON, hc]
    | networkError m => simp [loadGeoJSON, hc]
  rw [hload]
  refine ⟨?_, rfl, rfl, ?_⟩
  · show ((fetchErrorMessage fetch).getD "") ≠ ""
    cases fetch with
    | success b => exact absurd rfl (hfail b)
    | httpError s =>
        intro h
        have hl := congrArg String.length h
        simp [fetchErrorMessage, String.length_append] at hl
        exact absurd hl.1 (by decide)
    | timeout => decide
    | networkError m => exact hmsg m rfl
  · show findWardByLocation
        { geoJsonData := some emptyFeatureCollection, loading := false,
          error := fetchErrorMessage fetch } lat lng = none
    simp only [findWardByLocation]
    split <;> rfl

/-- Witness for C4: empty cache, fetch timing out, probe point (5, 5). -/
theorem load_failure_degraded_witness :
    (getCachedGeoJSON 0 none).1 = none ∧
    (((loadGeoJSON id 0 none FetchOutcome.timeout).state.error).getD "" ≠ "" ∧
      (loadGeoJSON id 0 none FetchOutcome.timeout).state.geoJsonData =
        some emptyFeatureCollection ∧
      getAllWards (loadGeoJSON id 0 none FetchOutcome.timeout).state = [] ∧
      findWardByLocation (loadGeoJSON id 0 none FetchOutcome.timeout).state 5 5 = none) :=
  ⟨rfl, load_failure_degraded id 0 none FetchOutcome.timeout 5 5 rfl
    (fun _ h => nomatch h) (fun _ h => nomatch h)⟩

/-- C1: the end-to-end scenario.  With an empty cache and the remote source
returning the square-ward FeatureCollection (simplification leaving it
unchanged), the pipeline holds that collection, and the square ward does
contain the origin (`findWardForPoint` returns it); yet
`findWardByLocation(0, 0)` returns none — the guard
`!latitude || !longitude` treats the coordinate 0 as missing — contradicting
the claim that resolution at {0, 0} yields the ward's normalized record.
Resolution at {5, 5} is none as claimed, and at the interior point
(1/2, 1/2) the normalized record is returned, isolating the divergence to the
falsy-zero guard. -/
theorem resolveWard_endToEnd_zero_point :
    (loadGeoJSON id 0 none (FetchOutcome.success squareFC)).state.geoJsonData =
      some squareFC ∧
    findWardForPoint (some { latitude := 0, longitude := 0 }) (some squareFC) =
      some squareFeature ∧
    findWardByLocation
      (loadGeoJSON id 0 none (FetchOutcome.success squareFC)).state 0 0 = none ∧
    findWardByLocation
      (loadGeoJSON id 0 none (FetchOutcome.success squareFC)).state 5 5 = none ∧
    findWardByLocation
        (loadGeoJSON id 0 none (FetchOutcome.success squareFC)).state (1/2) (1/2) =
      some { id := some "1", name := some "Test Ward", municipality := none,
             properties := squareFeature.properties, geometry := none } := by
  have hr : List.range squareRing.length = [0, 1, 2, 3, 4] := rfl
  have hin0 : isPointInPolygon (some { latitude := 0, longitude := 0 })
      (some squareRing) = true := by
    show (if squareRing.length < 3 then false else rayCastLoop 0 0 squareRing) = true
    rw [if_neg (by decide), rayCastLoop, hr]
    norm_num [rayCastEdge, squareRing]
  have hinh : isPointInPolygon (some { latitude := 1/2, longitude := 1/2 })
      (some squareRing) = true := by
    show (if squareRing.length < 3 then false
      else rayCastLoop (1/2) (1/2) squareRing) = true
    rw [if_neg (by decide), rayCastLoop, hr]
    norm_num [rayCastEdge, squareRing]
  have hhalf : decide ((1 : ℚ)/2 = 0) = false := decide_eq_false (by norm_num)
  refine ⟨rfl, ?_, rfl, rfl, ?_⟩
  · show findWardLoop { latitude := 0, longitude := 0 } squareFC.features =
      some squareFeature
    simp [squareFC, squareFeature, findWardLoop, hin0]
  · show findWardByLocation
        { geoJsonData := some squareFC, loading := false, error := none }
        (1/2) (1/2) =
      some { id := some "1", name := some "Test Ward", municipality := none,
             properties := squareFeature.properties, geometry := none }
    simp only [findWardByLocation, hhalf, Bool.or_false, Bool.false_or, if_false]
    simp only [findWardForPoint, squareFC, squareFeature, findWardLoop, List.head?, hinh]
    decide

end FixMaps
